import Mathlib

/-!
Verification development for the workspace/document-management core
(src/workspace.ts of the coc.nvim fork).

The TypeScript source is shallowly embedded: buffers, the in-memory
document registry and the filesystem are explicit state; editor RPC
calls (cursor moves, argadd, prompts, echo) are external effects that
either appear as parameters (prompt answers) or as emitted message
values; JavaScript runtime exceptions (TypeError on a null dereference,
rejected filesystem promises) are the error side of Except.

Helpers operating on List Char are used instead of the String library
functions whose recursion the kernel does not reduce well; a String is
converted with String.data / String.mk at the boundary.
-/

namespace Coc

/-! ## Character-list string utilities -/

/-- Split a character list at every occurrence of the separator character. -/
def splitOnChar (sep : Char) : List Char → List (List Char)
  | [] => [[]]
  | c :: cs =>
    match splitOnChar sep cs with
    | [] => [[]]
    | g :: gs => if c == sep then [] :: g :: gs else (c :: g) :: gs

/-- Does the second list start with the first list? -/
def listStarts : List Char → List Char → Bool
  | [], _ => true
  | _ :: _, [] => false
  | x :: xs, y :: ys => x == y && listStarts xs ys

/-- The source uses the JavaScript String.startsWith; embedded over char lists. -/
def strStartsWith (s pat : String) : Bool :=
  listStarts pat.data s.data

/-- The source uses the JavaScript String.endsWith; embedded over char lists. -/
def strEndsWith (s pat : String) : Bool :=
  listStarts pat.data.reverse s.data.reverse

/-- Embedding of the regexp replace removing one trailing slash
(filepath.replace in deleteFile, and the mapping over env roots in resolveRoot). -/
def stripTrailingSlash (p : String) : String :=
  if strEndsWith p "/" then String.mk p.data.dropLast else p

/-- Split a uri at the first colon: (scheme part, remainder). -/
def splitFirstColon : List Char → Option (List Char × List Char)
  | [] => none
  | c :: cs =>
    if c == ':' then some ([], cs)
    else (splitFirstColon cs).map (fun q => (c :: q.1, q.2))

/-- Scheme of a uri string (Uri.parse(uri).scheme in the source). -/
def uriScheme (uri : String) : String :=
  match splitFirstColon uri.data with
  | some (sch, _) => String.mk sch
  | none => ""

/-- Filesystem path of a uri (Uri.parse(uri).fsPath in the source):
for scheme://path uris the path component, otherwise the uri itself. -/
def uriFsPath (uri : String) : String :=
  match splitFirstColon uri.data with
  | some (_, rest) =>
    match rest with
    | '/' :: '/' :: p => String.mk p
    | _ => uri
  | none => uri

/-- Uri.file(filepath).toString() in the source. -/
def fileUri (filepath : String) : String :=
  "file://" ++ filepath

/-- Path components of an absolute path. -/
def splitPath (p : String) : List String :=
  ((splitOnChar '/' p.data).map String.mk).filter (fun s => s ≠ "")

/-- Rebuild an absolute path from components; the empty list is the root "/". -/
def joinPath (cs : List String) : String :=
  "/" ++ String.intercalate "/" cs

/-- path.dirname of an absolute path. -/
def dirname (p : String) : String :=
  joinPath (splitPath p).dropLast

/-- path.join of a directory and one extra name. -/
def joinWith (dir name : String) : String :=
  if dir == "/" then "/" ++ name else dir ++ "/" ++ name

/-- The directory itself followed by its proper ancestors up to the root. -/
def ancestorDirs (dir : String) : List String :=
  let comps := splitPath dir
  (List.range (comps.length + 1)).reverse.map (fun n => joinPath (comps.take n))

/-! ## Filesystem model -/

/-- A filesystem entry: a regular file with its content, or a directory.
The Bool on a directory records whether it still holds entries (rmdir on a
non-empty directory fails). -/
inductive FsEntry
  | file (content : String)
  | dir (nonempty : Bool)
deriving DecidableEq

def FsEntry.isDirectory : FsEntry → Bool
  | .dir _ => true
  | .file _ => false

def FsEntry.isFile : FsEntry → Bool
  | .dir _ => false
  | .file _ => true

/-- The filesystem: a flat association list from absolute path to entry. -/
abbrev FileSystem := List (String × FsEntry)

def fsLookup (fsys : FileSystem) (p : String) : Option FsEntry :=
  (fsys.find? (fun q => q.1 == p)).map (fun q => q.2)

/-- fs.existsSync in the source. -/
def fsExists (fsys : FileSystem) (p : String) : Bool :=
  (fsLookup fsys p).isSome

/-- Node filesystem errors surfaced by the fs model. -/
inductive IoError
  | enoent (path : String)
  | eisdir (path : String)
  | enotdir (path : String)
  | enotempty (path : String)
  | eexist (path : String)
deriving DecidableEq

/-- Sites at which the embedded code dereferences null and raises TypeError. -/
inductive TypeErrorSite
  | readVersionOfNull
  | isDirectoryOfNull
  | applyEditsOfNull
deriving DecidableEq

/-- A JavaScript runtime exception escaping an embedded function. -/
inductive JsError
  | typeError (site : TypeErrorSite)
  | ioError (e : IoError)
deriving DecidableEq

def fsRemove (fsys : FileSystem) (p : String) : FileSystem :=
  fsys.filter (fun q => q.1 != p)

def fsSetEntry (fsys : FileSystem) (p : String) (e : FsEntry) : FileSystem :=
  if fsExists fsys p then fsys.map (fun q => if q.1 == p then (p, e) else q)
  else fsys ++ [(p, e)]

/-- fs.writeFileSync / the writeFile util: (over)writes a regular file. -/
def fsWrite (fsys : FileSystem) (p : String) (content : String) : FileSystem :=
  fsSetEntry fsys p (FsEntry.file content)

/-- fs.readFileSync / the readFile util: content of a file, error otherwise. -/
def fsReadSync (fsys : FileSystem) (p : String) : Except JsError String :=
  match fsLookup fsys p with
  | some (FsEntry.file c) => .ok c
  | some (FsEntry.dir _) => .error (JsError.ioError (IoError.eisdir p))
  | none => .error (JsError.ioError (IoError.enoent p))

/-- mkdirAsync util: creates an empty directory, fails if the path exists. -/
def fsMkdir (fsys : FileSystem) (p : String) : Except IoError FileSystem :=
  let p := stripTrailingSlash p
  if fsExists fsys p then .error (IoError.eexist p)
  else .ok (fsys ++ [(p, FsEntry.dir false)])

/-- fs.unlink: removes a regular file. -/
def fsUnlink (fsys : FileSystem) (p : String) : Except IoError FileSystem :=
  match fsLookup fsys p with
  | some (FsEntry.file _) => .ok (fsRemove fsys p)
  | some (FsEntry.dir _) => .error (IoError.eisdir p)
  | none => .error (IoError.enoent p)

/-- fs.rmdir: removes an empty directory; ENOTEMPTY on a non-empty one. -/
def fsRmdir (fsys : FileSystem) (p : String) : Except IoError FileSystem :=
  let p := stripTrailingSlash p
  match fsLookup fsys p with
  | some (FsEntry.dir false) => .ok (fsRemove fsys p)
  | some (FsEntry.dir true) => .error (IoError.enotempty p)
  | some (FsEntry.file _) => .error (IoError.enotdir p)
  | none => .error (IoError.enoent p)

/-- renameAsync util: moves an entry, overwriting any entry at the target. -/
def fsRename (fsys : FileSystem) (old new : String) : Except IoError FileSystem :=
  match fsLookup fsys old with
  | none => .error (IoError.enoent old)
  | some e => .ok (fsSetEntry (fsRemove fsys old) new e)

/-- Modelled from the spec: the statAsync util (util/fs, not under src/)
resolves to the stat of the path, or to null when the path does not exist;
the stat is represented by the filesystem entry itself. -/
def statAsync (fsys : FileSystem) (p : String) : Option FsEntry :=
  fsLookup fsys p

/-! ## Documents and workspace state -/

/-- A Document: the synchronized shadow of an editor buffer (model/document.ts
is not under src/; the fields are the ones workspace.ts reads). -/
structure Doc where
  bufnr : Nat := 1
  uri : String := ""
  version : Int := 0
  content : String := ""
  buftype : String := ""
deriving DecidableEq

/-- document.schema in the source: the scheme of the documents uri. -/
def Doc.schema (d : Doc) : String :=
  uriScheme d.uri

/-- The mutable workspace state that the embedded operations read and write.
Editor-side state (windows, cursor) and the nvim RPC are external. -/
structure WorkspaceState where
  buffers : List (Nat × Doc) := []
  fs : FileSystem := []
  root : String := "/"
  cwd : String := "/"
  inited : Bool := true
  homedir : String := "/home/u"
  envRoots : List String := []
  folderConfigFiles : List String := []
deriving DecidableEq

/-- getDocument(uri) for a string uri: scan the registry values for an exact
uri match (workspace.ts getDocument). -/
def getDocumentByUri (s : WorkspaceState) (uri : String) : Option Doc :=
  (s.buffers.map (fun q => q.2)).find? (fun d => d.uri == uri)

/-- getDocument(bufnr) for a numeric id. -/
def getDocumentByBufnr (s : WorkspaceState) (bufnr : Nat) : Option Doc :=
  ((s.buffers.find? (fun q => q.1 == bufnr)).map (fun q => q.2))

/-! ## Messages -/

/-- showMessage severities (the MsgTypes of the source; more is the default). -/
inductive MsgType
  | error
  | warning
  | more
deriving DecidableEq

/-- The user-facing message texts emitted by the embedded operations,
identified structurally instead of by their display string. -/
inductive MsgText
  | notOpened (uri : String)
  | changedBeforeApply (uri : String)
  | cantApplyEditsTo (uri : String)
  | fileNotExists (uri : String)
  | schemeShouldBeFile (uri : String)
  | alreadyExistsDot (uri : String)
  | notExistsDot (uri : String)
  | changeNotSupported
  | schemaNotSupported (uri : String)
  | fileNotExistsPath (path : String)
  | alreadyExistsBang (path : String)
  | alreadyExistsPlain (path : String)
  | renameError
  | notExistsPlain (path : String)
  | cantRemoveDirectory
  | deleteError (path : String)
  | cantCreate (path : String)
  | documentsChanged (n : Nat)
deriving DecidableEq

/-- One showMessage call: severity and text. -/
structure Msg where
  type : MsgType
  text : MsgText
deriving DecidableEq

/-! ## createFile / renameFile / deleteFile (workspace.ts 501-579) -/

structure CreateFileOptions where
  overwrite : Bool := false
  ignoreIfExists : Bool := false
deriving DecidableEq

structure RenameFileOptions where
  overwrite : Bool := false
  ignoreIfExists : Bool := false
deriving DecidableEq

structure DeleteFileOptions where
  recursive : Bool := false
  ignoreIfNotExists : Bool := false
deriving DecidableEq

/-- workspace.createFile (lines 501-526). The argadd of a fresh file and the
file-encoding lookup are external editor effects. -/
def createFile (s : WorkspaceState) (filepath : String) (opts : CreateFileOptions) :
    WorkspaceState × List Msg :=
  let stat := statAsync s.fs filepath
  if stat.isSome && !opts.overwrite && !opts.ignoreIfExists then
    (s, [⟨MsgType.error, MsgText.alreadyExistsBang filepath⟩])
  else if stat.isNone || opts.overwrite then
    if strEndsWith filepath "/" then
      match fsMkdir s.fs filepath with
      | .ok fs2 => ({ s with fs := fs2 }, [])
      | .error _ => (s, [⟨MsgType.error, MsgText.cantCreate filepath⟩])
    else
      match getDocumentByUri s (fileUri filepath) with
      | some _ => (s, [])
      | none => ({ s with fs := fsWrite s.fs filepath "" }, [])
  else (s, [])

/-- workspace.renameFile (lines 528-551). The rebinding of an open Document
(buffer setName followed by onBufCreate) runs through the editor RPC and the
BufCreate event; it does not touch the filesystem beyond the rename. -/
def renameFile (s : WorkspaceState) (oldPath newPath : String) (opts : RenameFileOptions) :
    WorkspaceState × List Msg :=
  let stat := statAsync s.fs newPath
  if stat.isSome && !opts.overwrite && !opts.ignoreIfExists then
    (s, [⟨MsgType.error, MsgText.alreadyExistsPlain newPath⟩])
  else if stat.isNone || opts.overwrite then
    match fsRename s.fs oldPath newPath with
    | .ok fs2 => ({ s with fs := fs2 }, [])
    | .error _ => (s, [⟨MsgType.error, MsgText.renameError⟩])
  else (s, [])

/-- workspace.deleteFile (lines 553-579).
Line 556 computes stat.isDirectory() before the null check of line 557, so a
missing path raises TypeError; the notExistsPlain message of line 558 and the
early return of line 561 are unreachable. The bdelete of an open documents
buffer is an external editor command (the registry entry goes away through the
resulting BufUnload event). -/
def deleteFile (s : WorkspaceState) (filepath : String) (opts : DeleteFileOptions) :
    Except JsError (WorkspaceState × List Msg) :=
  let stat := statAsync s.fs (stripTrailingSlash filepath)
  match stat with
  | none => .error (JsError.typeError TypeErrorSite.isDirectoryOfNull)
  | some st =>
    let isDir := st.isDirectory || strEndsWith filepath "/"
    if isDir && !opts.recursive then
      .ok (s, [⟨MsgType.error, MsgText.cantRemoveDirectory⟩])
    else
      match (if isDir then fsRmdir s.fs filepath else fsUnlink s.fs filepath) with
      | .error _ => .ok (s, [⟨MsgType.error, MsgText.deleteError filepath⟩])
      | .ok fs2 => .ok ({ s with fs := fs2 }, [])

/-! ## readFile (workspace.ts 388-398) -/

/-- A filesystem access performed by readFile. -/
inductive FsAccess
  | read (path : String)
deriving DecidableEq

/-- workspace.readFile: an open documents synchronized content, the empty
string for a non-file scheme, otherwise the file content from disk (the
forceSync of an open document only syncs in-memory state). -/
def readFile (s : WorkspaceState) (uri : String) : Except JsError (String × List FsAccess) :=
  match getDocumentByUri s uri with
  | some d => .ok (d.content, [])
  | none =>
    if uriScheme uri != "file" then .ok ("", [])
    else
      match fsReadSync s.fs (uriFsPath uri) with
      | .error e => .error e
      | .ok content => .ok (content, [FsAccess.read (uriFsPath uri)])

/-! ## Text edits (LSP shapes) -/

/-- An LSP TextEdit: a range (line/character start and end) and replacement. -/
structure TextEdit where
  startLine : Nat := 0
  startCharacter : Nat := 0
  endLine : Nat := 0
  endCharacter : Nat := 0
  newText : String := ""
deriving DecidableEq

/-- Character offset of a line/character position: walk the content consuming
the requested number of newlines, then add the character count. -/
def offsetAtAux : List Char → Nat → Nat → Nat
  | _, 0, ch => ch
  | [], _ + 1, ch => ch
  | c :: cs, line + 1, ch =>
    1 + offsetAtAux cs (if c == '\n' then line else line + 1) ch

/-- Modelled from the spec: TextDocument.applyEdits of the protocol library
(not part of this repository) splices each edits replacement text over the
byte range of its start/end positions, in order. -/
def applyOneEdit (content : String) (e : TextEdit) : String :=
  let cs := content.data
  let a := offsetAtAux cs e.startLine e.startCharacter
  let b := offsetAtAux cs e.endLine e.endCharacter
  String.mk (cs.take a ++ e.newText.data ++ cs.drop b)

def applyTextEdits (content : String) (edits : List TextEdit) : String :=
  edits.foldl applyOneEdit content

/-- Modelled from the spec: Document.applyEdits (model/document.ts, not under
src/) applies the edits through the editor buffer; the synchronized content
reflects the edited result and the version increments. -/
def Doc.applyEdits (d : Doc) (edits : List TextEdit) : Doc :=
  { d with content := applyTextEdits d.content edits, version := d.version + 1 }

/-- Replace the registry entry of the given buffer id. -/
def updateDoc (s : WorkspaceState) (bufnr : Nat) (d : Doc) : WorkspaceState :=
  { s with buffers := s.buffers.map (fun q => if q.1 == bufnr then (bufnr, d) else q) }

/-! ## WorkspaceEdit shapes -/

/-- One entry of documentChanges: a text-document edit with an optional
version (null is none), or a create/rename/delete file operation; unsupported
covers any other runtime value reaching the final else of the validator. -/
inductive DocChange
  | textDocumentEdit (uri : String) (version : Option Int) (edits : List TextEdit)
  | createFile (uri : String) (options : Option CreateFileOptions)
  | renameFile (oldUri newUri : String) (options : Option RenameFileOptions)
  | deleteFile (uri : String) (options : Option DeleteFileOptions)
  | unsupported
deriving DecidableEq

/-- A WorkspaceEdit: optional flat changes (uri to edits, in key order) and
optional documentChanges list. -/
structure WorkspaceEdit where
  changes : Option (List (String × List TextEdit)) := none
  documentChanges : Option (List DocChange) := none
deriving DecidableEq

/-- JavaScript truthiness of the version field used at line 835
(version && !doc): truthy iff non-null and non-zero. -/
def versionTruthy : Option Int → Bool
  | none => false
  | some v => v != 0

/-- JavaScript loose inequality doc.version != version of line 839:
a number is always loosely unequal to null. -/
def versionNeq (docVersion : Int) (version : Option Int) : Bool :=
  match version with
  | none => true
  | some v => docVersion != v

/-- Modelled from the spec: the isSupportedScheme util (util/index, not under
src/) accepts the supported uri scheme set, which contains the file scheme. -/
def isSupportedScheme (scheme : String) : Bool :=
  scheme == "file" || scheme == "untitled"

/-! ## Validation (workspace.ts 823-905) -/

/-- Validation outcome of a single documentChanges entry: a JavaScript
exception, a rejection message, or acceptance.

For a text-document edit the source (lines 831-853) reads doc.version at
line 839 whenever the guard of line 835 (version && !doc) fails, including
when the document is not open and the version is null or zero: that
dereference of null raises TypeError. The null-version checks of lines
843-852 are therefore reachable only with an open document, and then only
when doc.version equals the version, which never happens for a null version
under loose inequality, so they are dead code; they are embedded anyway.

For a create-file entry the source (lines 854-865) rejects when the scheme
equals file, while its own message says the scheme should be file. -/
def validateDocChange (s : WorkspaceState) : DocChange → Except JsError (Option Msg)
  | .textDocumentEdit uri version _ =>
    let doc := getDocumentByUri s uri
    if versionTruthy version && doc.isNone then
      .ok (some ⟨MsgType.error, MsgText.notOpened uri⟩)
    else
      match doc with
      | none => .error (JsError.typeError TypeErrorSite.readVersionOfNull)
      | some d =>
        if versionNeq d.version version then
          .ok (some ⟨MsgType.error, MsgText.changedBeforeApply uri⟩)
        else if version.isNone then
          if !strStartsWith uri "file" then
            .ok (some ⟨MsgType.error, MsgText.cantApplyEditsTo uri⟩)
          else if !fsExists s.fs (uriFsPath uri) then
            .ok (some ⟨MsgType.error, MsgText.fileNotExists uri⟩)
          else .ok none
        else .ok none
  | .createFile uri options =>
    if uriScheme uri == "file" then
      .ok (some ⟨MsgType.error, MsgText.schemeShouldBeFile uri⟩)
    else
      let ex := fsExists s.fs (uriFsPath uri)
      let opts := options.getD {}
      if !opts.ignoreIfExists && !opts.overwrite && ex then
        .ok (some ⟨MsgType.more, MsgText.alreadyExistsDot uri⟩)
      else .ok none
  | .renameFile _ newUri options =>
    let opts := options.getD {}
    let ex := fsExists s.fs (uriFsPath newUri)
    if !opts.overwrite && !opts.ignoreIfExists && ex then
      .ok (some ⟨MsgType.more, MsgText.alreadyExistsDot newUri⟩)
    else .ok none
  | .deleteFile uri options =>
    let opts := options.getD {}
    let ex := fsExists s.fs (uriFsPath uri)
    if !ex && !opts.ignoreIfNotExists then
      .ok (some ⟨MsgType.more, MsgText.notExistsDot uri⟩)
    else .ok none
  | .unsupported =>
    .ok (some ⟨MsgType.error, MsgText.changeNotSupported⟩)

def validateDocChangesList (s : WorkspaceState) : List DocChange → Except JsError (Bool × List Msg)
  | [] => .ok (true, [])
  | c :: rest =>
    match validateDocChange s c with
    | .error e => .error e
    | .ok (some m) => .ok (false, [m])
    | .ok none => validateDocChangesList s rest

/-- workspace.validteDocumentChanges (source name kept, lines 823-888);
a null documentChanges field passes. -/
def validteDocumentChanges (s : WorkspaceState) :
    Option (List DocChange) → Except JsError (Bool × List Msg)
  | none => .ok (true, [])
  | some cs => validateDocChangesList s cs

def validateChangesList (s : WorkspaceState) : List (String × List TextEdit) → Bool × List Msg
  | [] => (true, [])
  | (uri, _) :: rest =>
    if !isSupportedScheme (uriScheme uri) then
      (false, [⟨MsgType.error, MsgText.schemaNotSupported uri⟩])
    else if (getDocumentByUri s uri).isNone && !fsExists s.fs (uriFsPath uri) then
      (false, [⟨MsgType.error, MsgText.fileNotExistsPath (uriFsPath uri)⟩])
    else validateChangesList s rest

/-- workspace.validateChanges (lines 890-905): every flat-changes target must
have a supported scheme and be an open document or an existing file. -/
def validateChanges (s : WorkspaceState) :
    Option (List (String × List TextEdit)) → Bool × List Msg
  | none => (true, [])
  | some cs => validateChangesList s cs

/-! ## applyEdit (workspace.ts 293-359) -/

/-- workspace.getChangedFiles (lines 785-806): unopened file-scheme targets of
flat changes plus null-version text-document-edit targets. -/
def getChangedFiles (s : WorkspaceState) (edit : WorkspaceEdit) : List String :=
  let fromChanges :=
    match edit.changes with
    | none => []
    | some cs => (cs.filter (fun q =>
        strStartsWith q.1 "file" && (getDocumentByUri s q.1).isNone)).map (fun q => q.1)
  let fromDocChanges :=
    match edit.documentChanges with
    | none => []
    | some dcs => dcs.filterMap (fun c =>
        match c with
        | DocChange.textDocumentEdit uri none _ => some uri
        | _ => none)
  fromChanges ++ fromDocChanges

/-- The flat-changes loop of applyEdit (lines 307-323): open documents are
edited in memory, others by read / apply / write on disk. -/
def applyChangesList (s : WorkspaceState) :
    List (String × List TextEdit) → Except JsError WorkspaceState
  | [] => .ok s
  | (uri, edits) :: rest =>
    match getDocumentByUri s uri with
    | some doc => applyChangesList (updateDoc s doc.bufnr (doc.applyEdits edits)) rest
    | none =>
      match fsReadSync s.fs (uriFsPath uri) with
      | .error e => .error e
      | .ok content =>
        applyChangesList
          { s with fs := fsWrite s.fs (uriFsPath uri) (applyTextEdits content edits) } rest

def applyChanges (s : WorkspaceState) :
    Option (List (String × List TextEdit)) → Except JsError WorkspaceState
  | none => .ok s
  | some cs => applyChangesList s cs

/-- The documentChanges loop of applyEdit (lines 324-348). A non-null-version
text-document edit calls doc.applyEdits on the result of getDocument without a
null check (line 330-331); an entry that is none of the four variants falls
through all the type guards and does nothing. -/
def applyDocChangesList (s : WorkspaceState) :
    List DocChange → Except JsError (WorkspaceState × List Msg)
  | [] => .ok (s, [])
  | c :: rest =>
    let step : Except JsError (WorkspaceState × List Msg) :=
      match c with
      | DocChange.textDocumentEdit uri version edits =>
        if version.isSome then
          match getDocumentByUri s uri with
          | none => .error (JsError.typeError TypeErrorSite.applyEditsOfNull)
          | some doc => .ok (updateDoc s doc.bufnr (doc.applyEdits edits), [])
        else
          match fsReadSync s.fs (uriFsPath uri) with
          | .error e => .error e
          | .ok content =>
            .ok ({ s with fs := fsWrite s.fs (uriFsPath uri) (applyTextEdits content edits) }, [])
      | DocChange.createFile uri options =>
        .ok (createFile s (uriFsPath uri) (options.getD {}))
      | DocChange.renameFile oldUri newUri options =>
        .ok (renameFile s (uriFsPath oldUri) (uriFsPath newUri) (options.getD {}))
      | DocChange.deleteFile uri options =>
        deleteFile s (uriFsPath uri) (options.getD {})
      | DocChange.unsupported => .ok (s, [])
    match step with
    | .error e => .error e
    | .ok (s2, ms) =>
      match applyDocChangesList s2 rest with
      | .error e => .error e
      | .ok (s3, ms2) => .ok (s3, ms ++ ms2)

def applyDocChanges (s : WorkspaceState) :
    Option (List DocChange) → Except JsError (WorkspaceState × List Msg)
  | none => .ok (s, [])
  | some cs => applyDocChangesList s cs

/-- workspace.applyEdit (lines 293-359). promptYes is the answer of the
external confirmation prompt shown when unopened files would change; cursor
save/restore, filetype and encoding reads and argadd are external editor
effects. The summary message fires when documentChanges is non-empty. -/
def applyEdit (s : WorkspaceState) (promptYes : Bool) (edit : WorkspaceEdit) :
    Except JsError (Bool × WorkspaceState × List Msg) :=
  match validteDocumentChanges s edit.documentChanges with
  | .error e => .error e
  | .ok (false, ms1) => .ok (false, s, ms1)
  | .ok (true, ms1) =>
    let vc := validateChanges s edit.changes
    if vc.1 = false then .ok (false, s, ms1 ++ vc.2)
    else
      let changedFiles := getChangedFiles s edit
      if changedFiles.length > 0 && !promptYes then .ok (false, s, ms1 ++ vc.2)
      else
        match applyChanges s edit.changes with
        | .error e => .error e
        | .ok s1 =>
          match applyDocChanges s1 edit.documentChanges with
          | .error e => .error e
          | .ok (s2, ms3) =>
            let ms4 : List Msg :=
              match edit.documentChanges with
              | some dcs =>
                if dcs.length > 0 then [⟨MsgType.more, MsgText.documentsChanged dcs.length⟩]
                else []
              | none => []
            .ok (true, s2, ms1 ++ vc.2 ++ ms3 ++ ms4)

/-! ## Root resolution (workspace.ts 989-1003, 1103-1116) -/

/-- Modelled from the spec: the resolveRoot util (util/fs, not under src/)
returns the nearest ancestor directory of dir containing one of the marker
names, or null when none matches; the caller supplies the cwd fallback. -/
def resolveRootUtil (fsys : FileSystem) (dir : String) (markers : List String) : Option String :=
  (ancestorDirs dir).find? (fun a => markers.any (fun m => fsExists fsys (joinWith a m)))

/-- Modelled from the spec: the findUp util (not part of this repository)
walks from cwd upward and returns the full path of the first entry with the
given name, or null. -/
def findUpDir (fsys : FileSystem) (cwd : String) (name : String) : Option String :=
  ((ancestorDirs cwd).find? (fun a => fsExists fsys (joinWith a name))).map
    (fun a => joinWith a name)

/-- workspace.resolveRoot (lines 1103-1116): recompute only before
initialization, when the document falls outside the current root, or when the
current root is the home directory; otherwise the function returns undefined
(none). Marker names come from the env roots or the built-in list. -/
def resolveRoot (s : WorkspaceState) (uri : String) : Option String :=
  let dir := dirname (uriFsPath uri)
  if !s.inited || !strStartsWith dir s.root || s.root == s.homedir then
    let files :=
      if s.envRoots.length > 0 then s.envRoots.map stripTrailingSlash
      else [".vim", ".git", ".hg", ".projections.json"]
    some ((resolveRootUtil s.fs dir files).getD s.cwd)
  else none

/-- Events fired by the root-recomputation step of onBufCreate. -/
inductive WEvent
  | configurationChanged
  | workspaceFolderChanged
deriving DecidableEq

def countEvent (l : List WEvent) (e : WEvent) : Nat :=
  (l.filter (fun x => x == e)).length

/-- The folder-configuration registration of onBufCreate lines 992-999:
find a .vim folder above the new root and register its coc-settings.json
when that file exists (Configurations.addFolderFile is external; only the
registered path is tracked). -/
def registerFolderConfig (s : WorkspaceState) (root : String) : WorkspaceState :=
  match findUpDir s.fs root ".vim" with
  | some folder =>
    if folder != s.homedir then
      match statAsync s.fs (joinWith folder "coc-settings.json") with
      | some (FsEntry.file _) =>
        { s with folderConfigFiles := s.folderConfigFiles ++ [joinWith folder "coc-settings.json"] }
      | _ => s
    else s
  | none => s

/-- The root-recomputation step of onBufCreate (lines 989-1003): for a plain
file-backed document, resolve the root; when it is truthy and differs from the
current root, register any folder configuration, store the new root, and fire
one configuration-changed and one workspace-folder-changed event. -/
def onBufCreateRootUpdate (s : WorkspaceState) (d : Doc) : WorkspaceState × List WEvent :=
  if d.buftype == "" && Doc.schema d == "file" then
    match resolveRoot s d.uri with
    | some root =>
      if root != "" && s.root != root then
        let s1 := registerFolderConfig s root
        ({ s1 with root := root }, [WEvent.configurationChanged, WEvent.workspaceFolderChanged])
      else (s, [])
    | none => (s, [])
  else (s, [])

/-! ## Configuration model (workspace.ts 808-821) -/

/-- A JSON-like configuration value. Arrays and objects are encoded as
cons-chains inside one inductive so that all recursion is structural. -/
inductive JValue
  | null
  | bool (b : Bool)
  | num (n : Int)
  | str (s : String)
  | arrNil
  | arrCons (head tail : JValue)
  | objNil
  | objCons (key : String) (value rest : JValue)
deriving DecidableEq

/-- Modelled from the spec: the equals util (util/object, not under src/)
compares two values structurally, recursing into arrays and objects. -/
def equals : JValue → JValue → Bool
  | .null, .null => true
  | .bool a, .bool b => a == b
  | .num a, .num b => a == b
  | .str a, .str b => a == b
  | .arrNil, .arrNil => true
  | .arrCons h t, .arrCons h2 t2 => equals h h2 && equals t t2
  | .objNil, .objNil => true
  | .objCons k v r, .objCons k2 v2 r2 => k == k2 && equals v v2 && equals r r2
  | _, _ => false

/-- Structural equality lifted to the possibly-undefined lookup results. -/
def equalsOpt : Option JValue → Option JValue → Bool
  | none, none => true
  | some a, some b => equals a b
  | _, _ => false

/-- Key lookup in an object value. -/
def objLookup : JValue → String → Option JValue
  | .objCons k v rest, key => if k == key then some v else objLookup rest key
  | _, _ => none

/-- Dotted-section lookup: follow the key path into nested objects. -/
def lookupPath (v : JValue) : List String → Option JValue
  | [] => some v
  | k :: ks =>
    match objLookup v k with
    | some v2 => lookupPath v2 ks
    | none => none

/-- The layer stack of a Configurations object: defaults, user, workspace,
plus per-root folder fragments. -/
structure ConfigLayers where
  defaults : JValue := JValue.objNil
  user : JValue := JValue.objNil
  workspace : JValue := JValue.objNil
  folders : List (String × JValue) := []
deriving DecidableEq

/-- The folder layer applying to a resource: the first folder fragment whose
root path the resource path extends. -/
def folderFor (ls : ConfigLayers) (resource : Option String) : Option JValue :=
  match resource with
  | none => none
  | some uri =>
    (ls.folders.find? (fun q => strStartsWith (uriFsPath uri) q.1)).map (fun q => q.2)

/-- Modelled from the spec: Configurations.getConfiguration (model/
configurations, not under src/) returns the merged value for a section scoped
to a resource, scanning layers from most specific (folder, workspace) to
least (user, defaults) and taking the first defined value. -/
def getConfigurationValue (ls : ConfigLayers) (sec : List String) (resource : Option String) :
    Option JValue :=
  match (folderFor ls resource).bind (fun v => lookupPath v sec) with
  | some v => some v
  | none =>
    match lookupPath ls.workspace sec with
    | some v => some v
    | none =>
      match lookupPath ls.user sec with
      | some v => some v
      | none => lookupPath ls.defaults sec

/-- The affectsConfiguration predicate built by onConfigurationChange
(lines 814-819): the merged values of the captured previous stack and the
freshly loaded stack are compared with equals, negated. -/
def affectsConfiguration (old new : ConfigLayers) (sec : List String)
    (resource : Option String) : Bool :=
  !equalsOpt (getConfigurationValue old sec resource) (getConfigurationValue new sec resource)

/-! ## Document registry (workspace.ts 963-1030, 1074-1080) -/

/-- The buffers map of the workspace, as an association list with the
JavaScript Map update semantics. -/
abbrev RegMap := List (Nat × Doc)

def containsKey (m : RegMap) (k : Nat) : Bool :=
  m.any (fun q => q.1 == k)

/-- Number of registry entries held for one buffer id. -/
def countKey (m : RegMap) (k : Nat) : Nat :=
  (m.filter (fun q => q.1 == k)).length

/-- Map.set: replace the entry in place when the key exists, else append. -/
def mapSet (m : RegMap) (k : Nat) (v : Doc) : RegMap :=
  if containsKey m k then m.map (fun q => if q.1 == k then (k, v) else q)
  else m ++ [(k, v)]

/-- Map.delete. -/
def mapDelete (m : RegMap) (k : Nat) : RegMap :=
  m.filter (fun q => q.1 != k)

/-- The registry effect of onBufCreate (lines 963-1014) for a buffer id:
nothing when the buffer is not loaded; otherwise, when a document is already
registered, a BufUnload event fires first and removes it (lines 973 and
1022-1030); a fresh document is registered only when its init succeeds.
The creating set only guards against a concurrent duplicate creation and is
the identity in this sequential model. -/
def bufCreateStep (m : RegMap) (n : Nat) (loaded initOk : Bool) (d : Doc) : RegMap :=
  if !loaded then m
  else
    let m1 := if containsKey m n then mapDelete m n else m
    if initOk then mapSet m1 n d else m1

/-- One registry operation: buffer creation, buffer unload, the debounced
recheck (which creates only when the id is unregistered, lines 1074-1080), or
the re-creation performed by renameFile for an open document (line 544). -/
inductive RegOp
  | bufCreate (bufnr : Nat) (loaded initOk : Bool) (d : Doc)
  | bufUnload (bufnr : Nat)
  | recheck (bufnr : Nat) (loaded initOk : Bool) (d : Doc)
  | renameReattach (bufnr : Nat) (loaded initOk : Bool) (d : Doc)
deriving DecidableEq

def applyRegOp (m : RegMap) : RegOp → RegMap
  | .bufCreate n loaded initOk d => bufCreateStep m n loaded initOk d
  | .bufUnload n => mapDelete m n
  | .recheck n loaded initOk d =>
    if containsKey m n then m else bufCreateStep m n loaded initOk d
  | .renameReattach n loaded initOk d => bufCreateStep m n loaded initOk d

/-! ## Claims about the workspace edit engine -/

/-- Claim C1: for every WorkspaceEdit whose validation fails (either
validteDocumentChanges or validateChanges returns false), applyEdit returns
false and the workspace state — document registry, document contents and
filesystem — is returned unchanged: validation runs wholesale before any
mutation begins. -/
theorem applyEdit_validationFailure_noMutation (s : WorkspaceState) (p : Bool)
    (edit : WorkspaceEdit)
    (h : (∃ ms, validteDocumentChanges s edit.documentChanges = .ok (false, ms)) ∨
         ((∃ ms, validteDocumentChanges s edit.documentChanges = .ok (true, ms)) ∧
          (validateChanges s edit.changes).1 = false)) :
    ∃ ms, applyEdit s p edit = .ok (false, s, ms) := by
  rcases h with ⟨ms, h⟩ | ⟨⟨ms, h⟩, h2⟩
  · exact ⟨ms, by simp [applyEdit, h]⟩
  · exact ⟨ms ++ (validateChanges s edit.changes).2, by simp [applyEdit, h, h2]⟩

/-- Witness for C1: an unsupported documentChanges entry fails validation and
applyEdit returns false with the state untouched. -/
theorem applyEdit_validationFailure_noMutation_witness :
    (validteDocumentChanges ({} : WorkspaceState) (some [DocChange.unsupported]) =
      .ok (false, [⟨MsgType.error, MsgText.changeNotSupported⟩])) ∧
    (∃ ms, applyEdit ({} : WorkspaceState) true
      { documentChanges := some [DocChange.unsupported] } =
        .ok (false, ({} : WorkspaceState), ms)) :=
  ⟨rfl, applyEdit_validationFailure_noMutation _ _ _ (Or.inl ⟨_, rfl⟩)⟩

/-- Claim C2 (code bug): a text-document edit with null version whose target
is an existing on-disk file-scheme uri not open as a document makes applyEdit
raise TypeError instead of validating and editing the file: line 839 reads
doc.version although getDocument returned null. -/
theorem applyEdit_nullVersion_unopened_throws :
    applyEdit { fs := [("/tmp/a.txt", FsEntry.file "old")] } true
      { documentChanges :=
          some [DocChange.textDocumentEdit "file:///tmp/a.txt" none [{ newText := "x" }]] } =
      .error (JsError.typeError TypeErrorSite.readVersionOfNull) := by
  rfl

/-- Claim C3 (code bug): a create-file operation whose uri has the file scheme
and whose target does not exist is rejected by validation — the guard of line
856 tests scheme === file where its own message says the scheme should be
file — so validation aborts instead of accepting the entry. -/
theorem validteDocumentChanges_fileScheme_create_rejected :
    validteDocumentChanges ({} : WorkspaceState)
      (some [DocChange.createFile "file:///tmp/new.txt" none]) =
      .ok (false, [⟨MsgType.error, MsgText.schemeShouldBeFile "file:///tmp/new.txt"⟩]) := by
  rfl

/-- Claim C4 (code bug): deleteFile on a path that does not exist raises
TypeError instead of showing the not-exists message: line 556 calls
stat.isDirectory() before the null check of line 557. -/
theorem deleteFile_missingPath_throws :
    deleteFile ({} : WorkspaceState) "/tmp/absent.txt" {} =
      .error (JsError.typeError TypeErrorSite.isDirectoryOfNull) := by
  rfl

/-- Claim C5: deleteFile on an existing directory with the recursive option
unset reports an error message and performs no filesystem mutation: the state
is returned unchanged, so the directory and its contents remain. -/
theorem deleteFile_directory_nonrecursive_reportsError (s : WorkspaceState) (p : String)
    (opts : DeleteFileOptions) (ne : Bool)
    (h : statAsync s.fs (stripTrailingSlash p) = some (FsEntry.dir ne))
    (hr : opts.recursive = false) :
    deleteFile s p opts = .ok (s, [⟨MsgType.error, MsgText.cantRemoveDirectory⟩]) := by
  simp [deleteFile, h, FsEntry.isDirectory, hr]

/-- Witness for C5: a non-empty directory with recursive unset. -/
theorem deleteFile_directory_nonrecursive_witness :
    statAsync [("/tmp/dir", FsEntry.dir true)] (stripTrailingSlash "/tmp/dir/") =
      some (FsEntry.dir true) ∧
    deleteFile { fs := [("/tmp/dir", FsEntry.dir true)] } "/tmp/dir/" {} =
      .ok ({ fs := [("/tmp/dir", FsEntry.dir true)] },
        [⟨MsgType.error, MsgText.cantRemoveDirectory⟩]) :=
  ⟨by decide, deleteFile_directory_nonrecursive_reportsError _ _ _ true (by decide) rfl⟩

/-- Claim C6: createFile on a path where an entry already exists, with neither
overwrite nor ignoreIfExists set, reports an error message and performs no
write: the state is returned unchanged, so the existing content is kept. -/
theorem createFile_existing_noFlags_reportsError (s : WorkspaceState) (p : String)
    (opts : CreateFileOptions) (st : FsEntry)
    (h : statAsync s.fs p = some st)
    (ho : opts.overwrite = false) (hi : opts.ignoreIfExists = false) :
    createFile s p opts = (s, [⟨MsgType.error, MsgText.alreadyExistsBang p⟩]) := by
  simp [createFile, h, ho, hi]

/-- Witness for C6: an already-existing file and empty options. -/
theorem createFile_existing_noFlags_witness :
    statAsync [("/tmp/new.txt", FsEntry.file "keep")] "/tmp/new.txt" =
      some (FsEntry.file "keep") ∧
    createFile { fs := [("/tmp/new.txt", FsEntry.file "keep")] } "/tmp/new.txt" {} =
      ({ fs := [("/tmp/new.txt", FsEntry.file "keep")] },
        [⟨MsgType.error, MsgText.alreadyExistsBang "/tmp/new.txt"⟩]) :=
  ⟨by decide, createFile_existing_noFlags_reportsError _ _ _ (FsEntry.file "keep")
    (by decide) rfl rfl⟩

/-- Claim C10: readFile on a uri that is not open as a document and whose
scheme is not file returns the empty string, performs no filesystem access
and raises no error. -/
theorem readFile_unopened_nonFileScheme_returnsEmpty (s : WorkspaceState) (uri : String)
    (h1 : getDocumentByUri s uri = none) (h2 : uriScheme uri ≠ "file") :
    readFile s uri = .ok ("", []) := by
  simp [readFile, h1, h2]

/-- Witness for C10: an untitled-scheme uri with an empty registry. -/
theorem readFile_unopened_nonFileScheme_witness :
    getDocumentByUri ({} : WorkspaceState) "untitled:one" = none ∧
    uriScheme "untitled:one" ≠ "file" ∧
    readFile ({} : WorkspaceState) "untitled:one" = .ok ("", []) :=
  ⟨rfl, by decide,
    readFile_unopened_nonFileScheme_returnsEmpty _ _ rfl (by decide)⟩

/-! ## Claims about root recomputation, configuration and the registry -/

/-- Claim C7: root recomputation is idempotent and fires exactly once per
actual change. When the resolved root of a newly created document equals the
current root, no configuration-reload and no workspace-folder event fires and
the state (including the stored root) is unchanged; when it resolves to a
truthy value different from the current root, the root is replaced and each
of the two events fires exactly once. -/
theorem rootRecompute_idempotent_firesOncePerChange (s : WorkspaceState) (d : Doc) :
    (resolveRoot s d.uri = some s.root → onBufCreateRootUpdate s d = (s, [])) ∧
    (∀ r, d.buftype = "" → Doc.schema d = "file" → resolveRoot s d.uri = some r →
      r ≠ "" → s.root ≠ r →
      (onBufCreateRootUpdate s d).1.root = r ∧
      countEvent (onBufCreateRootUpdate s d).2 WEvent.configurationChanged = 1 ∧
      countEvent (onBufCreateRootUpdate s d).2 WEvent.workspaceFolderChanged = 1) := by
  constructor
  · intro h
    unfold onBufCreateRootUpdate
    split
    · rw [h]; simp
    · rfl
  · intro r hb hs h hne hroot
    simp only [onBufCreateRootUpdate, hb, hs, h]
    simp [hne, Ne.symm hroot, countEvent, hroot]

/-- Witness for C7: a document resolving to the unchanged home-directory root
fires nothing; a document resolving to a fresh root before initialization
stores it and fires each event once. -/
theorem rootRecompute_idempotent_witness :
    (onBufCreateRootUpdate
        { root := "/home/u", homedir := "/home/u", cwd := "/cwd",
          fs := [("/home/u/.git", FsEntry.dir false)] }
        { uri := "file:///home/u/proj2/a.ts" } =
      ({ root := "/home/u", homedir := "/home/u", cwd := "/cwd",
          fs := [("/home/u/.git", FsEntry.dir false)] }, [])) ∧
    ((onBufCreateRootUpdate
        { root := "/old", inited := false, cwd := "/cwd",
          fs := [("/tmp/proj/.git", FsEntry.dir false)] }
        { uri := "file:///tmp/proj/a.ts" }).1.root = "/tmp/proj" ∧
      countEvent (onBufCreateRootUpdate
        { root := "/old", inited := false, cwd := "/cwd",
          fs := [("/tmp/proj/.git", FsEntry.dir false)] }
        { uri := "file:///tmp/proj/a.ts" }).2 WEvent.configurationChanged = 1 ∧
      countEvent (onBufCreateRootUpdate
        { root := "/old", inited := false, cwd := "/cwd",
          fs := [("/tmp/proj/.git", FsEntry.dir false)] }
        { uri := "file:///tmp/proj/a.ts" }).2 WEvent.workspaceFolderChanged = 1) :=
  ⟨(rootRecompute_idempotent_firesOncePerChange _ _).1 (by decide),
   (rootRecompute_idempotent_firesOncePerChange _ _).2 "/tmp/proj" rfl (by decide)
     (by decide) (by decide) (by decide)⟩

/-- Structural equality of configuration values agrees with propositional
equality. -/
theorem equals_iff : ∀ a b : JValue, equals a b = true ↔ a = b := by
  intro a
  induction a with
  | null => intro b; cases b <;> simp [equals]
  | bool x => intro b; cases b <;> simp [equals]
  | num x => intro b; cases b <;> simp [equals]
  | str x => intro b; cases b <;> simp [equals]
  | arrNil => intro b; cases b <;> simp [equals]
  | arrCons h t ih1 ih2 => intro b; cases b <;> simp [equals, ih1, ih2]
  | objNil => intro b; cases b <;> simp [equals]
  | objCons k v r ih1 ih2 => intro b; cases b <;> simp [equals, ih1, ih2, and_assoc]

/-- Claim C8: the affectsConfiguration predicate carried by the configuration
change event returns true if and only if the merged configuration value for
the section and resource differs structurally between the previous layer
stack and the new one. -/
theorem affectsConfiguration_iff_mergedValue_differs (a b : ConfigLayers)
    (sec : List String) (resource : Option String) :
    affectsConfiguration a b sec resource = true ↔
      getConfigurationValue a sec resource ≠ getConfigurationValue b sec resource := by
  unfold affectsConfiguration
  rcases h1 : getConfigurationValue a sec resource with _ | v1 <;>
    rcases h2 : getConfigurationValue b sec resource with _ | v2 <;>
      simp [equalsOpt, ← equals_iff]

/-- Filtering the registry never increases the number of entries for an id. -/
theorem countKey_filter_le (m : RegMap) (p : Nat × Doc → Bool) (k : Nat) :
    countKey (m.filter p) k ≤ countKey m k :=
  ((List.filter_sublist m).filter _).length_le

/-- An id that is not in the map has no entries. -/
theorem countKey_eq_zero_of_not_containsKey (m : RegMap) (k : Nat)
    (h : containsKey m k = false) : countKey m k = 0 := by
  unfold containsKey at h
  unfold countKey
  rw [← List.countP_eq_length_filter, List.countP_eq_zero]
  intro a ha hak
  have : m.any (fun q => q.1 == k) = true := List.any_eq_true.mpr ⟨a, ha, hak⟩
  rw [h] at this
  exact Bool.false_ne_true this

/-- The in-place replacement of Map.set keeps every per-id entry count. -/
theorem countKey_map_replace (m : RegMap) (k : Nat) (v : Doc) (k' : Nat) :
    countKey (m.map (fun q => if q.1 == k then (k, v) else q)) k' = countKey m k' := by
  unfold countKey
  rw [← List.countP_eq_length_filter, ← List.countP_eq_length_filter, List.countP_map]
  apply List.countP_congr
  intro q hq
  by_cases h : q.1 = k
  · simp [Function.comp, h]
  · simp [Function.comp, h]

theorem countKey_append (m m2 : RegMap) (k : Nat) :
    countKey (m ++ m2) k = countKey m k + countKey m2 k := by
  simp [countKey, List.filter_append]

/-- Map.set preserves the at-most-one-entry-per-id bound. -/
theorem countKey_mapSet_le (m : RegMap) (k : Nat) (v : Doc) (k' : Nat)
    (h : countKey m k' ≤ 1) : countKey (mapSet m k v) k' ≤ 1 := by
  unfold mapSet
  by_cases hc : containsKey m k
  · rw [if_pos hc, countKey_map_replace]
    exact h
  · rw [if_neg hc, countKey_append]
    by_cases hk : k' = k
    · subst hk
      have h0 := countKey_eq_zero_of_not_containsKey m k' (by simpa using hc)
      rw [h0]
      have h1 : countKey [(k', v)] k' = 1 := by simp [countKey]
      omega
    · have h1 : countKey [(k, v)] k' = 0 := by simp [countKey, Ne.symm hk]
      omega

/-- Buffer creation (teardown of an existing entry, then registration)
preserves the at-most-one-entry-per-id bound. -/
theorem countKey_bufCreateStep_le (m : RegMap) (n : Nat) (loaded initOk : Bool) (d : Doc)
    (k : Nat) (h : countKey m k ≤ 1) :
    countKey (bufCreateStep m n loaded initOk d) k ≤ 1 := by
  unfold bufCreateStep
  by_cases hl : loaded
  · simp only [hl, Bool.not_true]
    have h1 : countKey (if containsKey m n then mapDelete m n else m) k ≤ 1 := by
      by_cases hc : containsKey m n
      · rw [if_pos hc]
        exact le_trans (countKey_filter_le m _ k) h
      · rw [if_neg hc]
        exact h
    by_cases hi : initOk
    · simp only [hi]
      simpa using countKey_mapSet_le _ n d k h1
    · simp only [hi]
      simpa using h1
  · simp only [Bool.not_eq_true] at hl
    simp [hl]
    exact h

/-- Every registry operation preserves the at-most-one-entry-per-id bound. -/
theorem countKey_applyRegOp_le (m : RegMap) (op : RegOp) (k : Nat)
    (h : countKey m k ≤ 1) : countKey (applyRegOp m op) k ≤ 1 := by
  cases op with
  | bufCreate n l i d => exact countKey_bufCreateStep_le m n l i d k h
  | bufUnload n => exact le_trans (countKey_filter_le m _ k) h
  | recheck n l i d =>
    simp only [applyRegOp]
    by_cases hc : containsKey m n
    · rw [if_pos hc]; exact h
    · rw [if_neg hc]; exact countKey_bufCreateStep_le m n l i d k h
  | renameReattach n l i d => exact countKey_bufCreateStep_le m n l i d k h

/-- Claim C9: registry uniqueness. After any sequence of buffer-create,
buffer-unload, recheck and rename operations starting from a registry holding
at most one document per buffer id, the registry still holds at most one
document per buffer id: re-creation tears the old entry down (through the
BufUnload fired first) before registering the new one. -/
theorem registry_atMostOne_document_perBufnr (m : RegMap) (ops : List RegOp)
    (h : ∀ k, countKey m k ≤ 1) :
    ∀ k, countKey (ops.foldl applyRegOp m) k ≤ 1 := by
  induction ops generalizing m with
  | nil => exact h
  | cons op rest ih => exact ih _ (fun k => countKey_applyRegOp_le m op k (h k))

/-- Witness for C9: a concrete operation sequence with a duplicate creation,
a recheck, an unload and a rename-driven re-creation, starting from the empty
registry. -/
theorem registry_atMostOne_witness :
    countKey (List.foldl applyRegOp []
      [RegOp.bufCreate 1 true true {},
       RegOp.bufCreate 1 true true { uri := "file:///a" },
       RegOp.recheck 2 true true { bufnr := 2 },
       RegOp.bufUnload 1,
       RegOp.renameReattach 2 true true { bufnr := 2, uri := "file:///b" }]) 2 ≤ 1 :=
  registry_atMostOne_document_perBufnr [] _ (fun _ => Nat.zero_le 1) 2

end Coc
